import Mathlib

/-!
Shallow embedding of the `ioserverlib` Rust crate.

Streams are modelled by explicit state passing:
* a reader is the list of bytes still available on the stream; the end of the
  list behaves like end-of-file (a `read_line` that finds no line feed consumes
  and returns everything that is left, exactly as Rust's `BufRead::read_line`
  does on a reader that reports end-of-file);
* a writer is a pair of byte lists: the bytes buffered but not yet flushed and
  the bytes already flushed to the transport (`Write::write_all` appends to the
  buffer, `Write::flush` moves the buffer to the flushed part).

Bytes are natural numbers (the code points of the UTF-8 text involved are all
ASCII in every concrete input considered here). Fallible operations return
`Except`; operations that loop (`Serializer::read`, the server/daemon loops)
take a fuel argument, `none` meaning the call did not return within the fuel.
-/

namespace Ioserverlib

variable {R W M E T P ε : Type}

/-- Rust `u8::is_ascii_whitespace`: space, tab, line feed, form feed,
carriage return. -/
def is_ascii_whitespace (b : Nat) : Bool :=
  b == 32 || b == 9 || b == 10 || b == 12 || b == 13

/-- Rust `str::trim_ascii` on the bytes of an ASCII string: remove leading and
trailing ASCII whitespace. -/
def trim_ascii (l : List Nat) : List Nat :=
  ((l.dropWhile is_ascii_whitespace).reverse.dropWhile is_ascii_whitespace).reverse

/-- `BufRead::read_line` (into an empty buffer) over a finite byte stream:
consume and return the bytes up to and including the first line feed, or
everything that is left when the stream ends without one; the second component
is the remaining stream. -/
def read_line : List Nat → List Nat × List Nat
  | [] => ([], [])
  | b :: bs =>
    if b = 10 then ([10], bs)
    else
      let p := read_line bs
      (b :: p.1, p.2)

/-- State of a buffered writer: bytes written but not yet flushed, and bytes
flushed to the transport. -/
structure WriterState where
  buffer : List Nat
  flushed : List Nat
deriving DecidableEq

/-- `Write::write_all`: append the bytes to the writer's buffer. -/
def write_all (w : WriterState) (bs : List Nat) : WriterState :=
  { w with buffer := w.buffer ++ bs }

/-- `Write::flush`: hand all buffered bytes to the transport. -/
def flush (w : WriterState) : WriterState :=
  { buffer := [], flushed := w.flushed ++ w.buffer }

/-- The `Serializer<R, W>` trait (src/serializer.rs): a state-passing
`try_read` over reader states `R` and a state-passing `write` over writer
states `W`, with message type `M` and error type `E`. -/
structure Serializer (R W M E : Type) where
  try_read : R → Except E (Option M) × R
  write : W → M → Except E Unit × W

/-- The derived `Serializer::read` (src/serializer.rs lines 9-15): loop calling
`try_read` until it yields a message, propagating the first error. `fuel`
bounds the number of `try_read` attempts; `none` means the loop did not return
within `fuel` attempts. -/
def Serializer.read (s : Serializer R W M E) : Nat → R → Option (Except E M × R)
  | 0, _ => none
  | fuel + 1, r =>
    match s.try_read r with
    | (Except.ok (some m), r') => some (Except.ok m, r')
    | (Except.error e, r') => some (Except.error e, r')
    | (Except.ok none, r') => s.read fuel r'

/-- Reader state after `n` successive `try_read` calls. -/
def Serializer.iterState (s : Serializer R W M E) : Nat → R → R
  | 0, r => r
  | n + 1, r => s.iterState n (s.try_read r).2

/-- The `serde_json` boundary used by the blanket
`impl Serializer for S: JsonSerializer`: `serde_json::to_vec` encodes a message
to bytes, `serde_json::from_slice` decodes bytes into a message. -/
structure JsonCodec (M E : Type) where
  to_vec : M → List Nat
  from_slice : List Nat → Except E M

/-- The blanket JSON serializer (src/serializer.rs lines 27-56): `try_read`
reads one line, trims ASCII whitespace, returns no message on an empty trimmed
line and otherwise JSON-decodes it; `write` JSON-encodes the message, writes
it, writes a line feed and flushes. The pure writer model cannot fail, so the
`?` operators on `write_all`/`flush` always take the success path. -/
def jsonSerializer (c : JsonCodec M E) : Serializer (List Nat) WriterState M E where
  try_read r :=
    let p := read_line r
    let buf := trim_ascii p.1
    if buf ≠ [] then
      match c.from_slice buf with
      | Except.ok m => (Except.ok (some m), p.2)
      | Except.error e => (Except.error e, p.2)
    else
      (Except.ok none, p.2)
  write w m :=
    (Except.ok (), flush (write_all (write_all w (c.to_vec m)) [10]))

/-- Facts about a concrete message under `serde_json` that the round-trip
properties rest on: its encoding contains no line feed byte, has no leading or
trailing ASCII whitespace, is nonempty, and decodes back to the message. -/
def JsonCodec.goodEncoding (c : JsonCodec M E) (m : M) : Prop :=
  10 ∉ c.to_vec m
  ∧ (c.to_vec m).dropWhile is_ascii_whitespace = c.to_vec m
  ∧ (c.to_vec m).reverse.dropWhile is_ascii_whitespace = (c.to_vec m).reverse
  ∧ c.to_vec m ≠ []
  ∧ c.from_slice (c.to_vec m) = Except.ok m

/- Concrete codec used to instantiate the generic theorems: messages are
natural numbers, encoded the way `serde_json` encodes a `u64` (its decimal
digits, no quotes, no whitespace) and decoded by accepting exactly a canonical
nonempty digit string. Errors are numbers (the pure stand-in for
`serde_json::Error`). -/

/-- Decimal digits, most significant first; the first argument is fuel
(`n + 1` is always enough). -/
def natDigitsGo : Nat → Nat → List Nat
  | 0, _ => []
  | fuel + 1, n =>
    if n < 10 then [48 + n]
    else natDigitsGo fuel (n / 10) ++ [48 + n % 10]

/-- ASCII decimal encoding of a natural number, e.g. `12 ↦ [49, 50]`. -/
def natDigits (n : Nat) : List Nat :=
  natDigitsGo (n + 1) n

/-- Is the byte an ASCII decimal digit. -/
def isDigit (b : Nat) : Bool :=
  48 ≤ b && b ≤ 57

/-- Value of a digit string, most significant first. -/
def parseDigits (l : List Nat) : Nat :=
  l.foldl (fun acc b => acc * 10 + (b - 48)) 0

/-- `serde_json::from_slice::<u64>` on canonical inputs: a nonempty digit
string without a superfluous leading zero decodes to its value, anything else
is a decode error. -/
def natFromSlice (l : List Nat) : Except Nat Nat :=
  if !l.isEmpty && l.all isDigit && (l.length == 1 || l.head? != some 48) then
    Except.ok (parseDigits l)
  else
    Except.error 0

/-- The `serde_json` codec for `u64` messages, restricted to canonical
inputs. -/
def natCodec : JsonCodec Nat Nat :=
  { to_vec := natDigits, from_slice := natFromSlice }

/-- `ReadChannel<R>` (src/channel.rs): read-only wrapper around a reader. -/
structure ReadChannel (R : Type) where
  inner : R

/-- `WriteChannel<W>` (src/channel.rs): write-only wrapper around a writer. -/
structure WriteChannel (W : Type) where
  inner : W

/-- `ReadOnlyChannel::try_read` for `ReadChannel`: delegate to the provided
serializer on the owned reader. -/
def ReadChannel.try_read (ch : ReadChannel R) (s : Serializer R W M E) :
    Except E (Option M) × ReadChannel R :=
  let p := s.try_read ch.inner
  (p.1, ⟨p.2⟩)

/-- `ReadOnlyChannel::read` for `ReadChannel`: delegate to the serializer's
derived `read` on the owned reader. -/
def ReadChannel.read (ch : ReadChannel R) (s : Serializer R W M E) (fuel : Nat) :
    Option (Except E M × ReadChannel R) :=
  (s.read fuel ch.inner).map fun p => (p.1, ⟨p.2⟩)

/-- `WriteOnlyChannel::write` for `WriteChannel`: delegate to the provided
serializer on the owned writer. -/
def WriteChannel.write (ch : WriteChannel W) (s : Serializer R W M E) (m : M) :
    Except E Unit × WriteChannel W :=
  let p := s.write ch.inner m
  (p.1, ⟨p.2⟩)

/-- `UniChannel<R, W, S>` (src/channel.rs): owned dual-stream channel holding a
read channel, a write channel and its serializer. -/
structure UniChannel (R W M E : Type) where
  reader : ReadChannel R
  writer : WriteChannel W
  serializer : Serializer R W M E

/-- `OwnedChannel::try_read` for `UniChannel`: delegate to the reader half with
the owned serializer. -/
def UniChannel.try_read (c : UniChannel R W M E) :
    Except E (Option M) × UniChannel R W M E :=
  let p := c.reader.try_read c.serializer
  (p.1, { c with reader := p.2 })

/-- `OwnedChannel::read` for `UniChannel`: delegate to the reader half with the
owned serializer. -/
def UniChannel.read (c : UniChannel R W M E) (fuel : Nat) :
    Option (Except E M × UniChannel R W M E) :=
  (c.reader.read c.serializer fuel).map fun p => (p.1, { c with reader := p.2 })

/-- `OwnedChannel::write` for `UniChannel`: delegate to the writer half with
the owned serializer. -/
def UniChannel.write (c : UniChannel R W M E) (m : M) :
    Except E Unit × UniChannel R W M E :=
  let p := c.writer.write c.serializer m
  (p.1, { c with writer := p.2 })

/-- `BiChannel<T, S>` (src/channel.rs): owned single-stream channel; the field
`stream` is named `io` in the source. -/
structure BiChannel (T M E : Type) where
  stream : T
  serializer : Serializer T T M E

/-- `OwnedChannel::try_read` for `BiChannel`: delegate to the owned serializer
on the single stream. -/
def BiChannel.try_read (c : BiChannel T M E) :
    Except E (Option M) × BiChannel T M E :=
  let p := c.serializer.try_read c.stream
  (p.1, { c with stream := p.2 })

/-- `OwnedChannel::read` for `BiChannel`: delegate to the owned serializer's
derived `read` on the single stream. -/
def BiChannel.read (c : BiChannel T M E) (fuel : Nat) :
    Option (Except E M × BiChannel T M E) :=
  (c.serializer.read fuel c.stream).map fun p => (p.1, { c with stream := p.2 })

/-- `OwnedChannel::write` for `BiChannel`: delegate to the owned serializer on
the single stream. -/
def BiChannel.write (c : BiChannel T M E) (m : M) :
    Except E Unit × BiChannel T M E :=
  let p := c.serializer.write c.stream m
  (p.1, { c with stream := p.2 })

/-- `Server<R, W, S, C, H>` (src/server.rs): an owned channel plus a message
handler (the phantom type parameters carry no data and are dropped). The
canonical owned channel shape, `UniChannel`, instantiates `C`. -/
structure Server (R W M E : Type) where
  channel : UniChannel R W M E
  handler : M → Option M

/-- `Server::new`. -/
def Server.new (channel : UniChannel R W M E) (handler : M → Option M) :
    Server R W M E :=
  ⟨channel, handler⟩

/-- `Server::update` (src/server.rs lines 82-90): blocking-read one message
through the channel; on success feed it to the handler and, when the handler
yields a response, write that response through the channel; errors propagate
via `?`. `fuel` bounds the read loop; `none` means the read did not return. -/
def Server.update (s : Server R W M E) (fuel : Nat) :
    Option (Except E Unit × Server R W M E) :=
  match s.channel.read fuel with
  | none => none
  | some (Except.error e, c') => some (Except.error e, { s with channel := c' })
  | some (Except.ok m, c') =>
    match s.handler m with
    | some resp =>
      let p := c'.write resp
      some (p.1, { s with channel := p.2 })
    | none => some (Except.ok (), { s with channel := c' })

/-- Joint state of the daemon's shared liveness flag (`Arc<AtomicBool>`), the
background thread (`finished` = it has exited its loop) and the server moved
into that thread. -/
structure DaemonState (R W M E : Type) where
  alive : Bool
  finished : Bool
  server : Server R W M E

/-- The `daemon` launcher (src/server.rs lines 14-48): construct a server from
the channel and the messages handler, initialize the shared flag to `true`,
spawn the loop (not yet finished). -/
def daemon (channel : UniChannel R W M E) (messages_handler : M → Option M) :
    DaemonState R W M E :=
  { alive := true
    finished := false
    server := Server.new channel messages_handler }

/-- One iteration of the daemon's background loop (src/server.rs lines 34-44):
a finished thread does nothing; otherwise load the flag — if it is false, exit
the loop; if it is true, run `update`, and on an error consult
`errors_handler`: `true` stores `false` into the flag and breaks, `false`
continues. `none` means the iteration blocked inside `update`. -/
def daemonStep (errors_handler : E → Bool) (fuel : Nat) (d : DaemonState R W M E) :
    Option (DaemonState R W M E) :=
  if d.finished then some d
  else if d.alive then
    match d.server.update fuel with
    | none => none
    | some (Except.error err, s') =>
      if errors_handler err then
        some { d with alive := false, finished := true, server := s' }
      else
        some { d with server := s' }
    | some (Except.ok _, s') => some { d with server := s' }
  else
    some { d with finished := true }

/-- `Daemon::is_alive`: load the shared flag. -/
def DaemonState.is_alive (d : DaemonState R W M E) : Bool :=
  d.alive

/-- `Daemon::kill`: store `false` into the shared flag. -/
def DaemonState.kill (d : DaemonState R W M E) : DaemonState R W M E :=
  { d with alive := false }

/-- `std::process::Child` as seen by src/client.rs: the three optional stdio
pipe handles (`Option` because `Stdio::piped()` may not have been configured,
or a pipe was already taken). -/
structure Child (P : Type) where
  stdin : Option P
  stdout : Option P
  stderr : Option P

/-- `std::io::Error` as used by src/client.rs: either an operating-system
error (from `Command::spawn`) or `std::io::Error::other` with a message. -/
inductive IoError (ε : Type) where
  | os : ε → IoError ε
  | other : String → IoError ε

/-- `std::io::BufReader::new` wrapper. -/
structure BufReader (P : Type) where
  inner : P

/-- `std::io::BufWriter::new` wrapper. -/
structure BufWriter (P : Type) where
  inner : P

/-- `process_stdio` (src/client.rs lines 12-39), parametrized by the outcome
of `command.stdin(piped).stdout(piped).spawn()`: propagate a spawn failure,
report a missing stdin or stdout pipe as a distinct error, and otherwise
return the child (its stdin and stdout taken) with a `UniChannel` reading the
child's stdout and writing its stdin. -/
def process_stdio (spawn : Except ε (Child P))
    (serializer : Serializer (BufReader P) (BufWriter P) M E) :
    Except (IoError ε) (Child P × UniChannel (BufReader P) (BufWriter P) M E) :=
  match spawn with
  | Except.error e => Except.error (IoError.os e)
  | Except.ok child =>
    match child.stdin with
    | none => Except.error (IoError.other "spawned process stdin pipe is missing")
    | some i =>
      match child.stdout with
      | none => Except.error (IoError.other "spawned process stdout pipe is missing")
      | some o =>
        Except.ok ({ child with stdin := none, stdout := none },
          UniChannel.mk ⟨⟨o⟩⟩ ⟨⟨i⟩⟩ serializer)

/-- `process_stdie` (src/client.rs lines 46-73): as ` process_stdio` but the
channel reads the child's stderr. -/
def process_stdie (spawn : Except ε (Child P))
    (serializer : Serializer (BufReader P) (BufWriter P) M E) :
    Except (IoError ε) (Child P × UniChannel (BufReader P) (BufWriter P) M E) :=
  match spawn with
  | Except.error e => Except.error (IoError.os e)
  | Except.ok child =>
    match child.stdin with
    | none => Except.error (IoError.other "spawned process stdin pipe is missing")
    | some i =>
      match child.stderr with
      | none => Except.error (IoError.other "spawned process stderr pipe is missing")
      | some o =>
        Except.ok ({ child with stdin := none, stderr := none },
          UniChannel.mk ⟨⟨o⟩⟩ ⟨⟨i⟩⟩ serializer)

/-- An arbitrary serializer over child-process pipe streams, used only to
instantiate the generic spawn contract at a concrete input. -/
def pipeSerializer : Serializer (BufReader Nat) (BufWriter Nat) Nat Nat :=
  ⟨fun r => (Except.ok none, r), fun w _ => (Except.ok (), w)⟩

/-! Helper lemmas about the stream primitives. -/

theorem read_line_no_newline (l : List Nat) (h : 10 ∉ l) :
    read_line l = (l, []) := by
  induction l with
  | nil => rfl
  | cons b bs ih =>
    have hb : b ≠ 10 := fun hb => h (hb ▸ List.mem_cons_self b bs)
    have hbs : 10 ∉ bs := fun hm => h (List.mem_cons_of_mem b hm)
    simp [read_line, hb, ih hbs]

theorem read_line_split (pre post : List Nat) (h : 10 ∉ pre) :
    read_line (pre ++ 10 :: post) = (pre ++ [10], post) := by
  induction pre with
  | nil => simp [read_line]
  | cons b bs ih =>
    have hb : b ≠ 10 := fun hb => h (hb ▸ List.mem_cons_self b bs)
    have hbs : 10 ∉ bs := fun hm => h (List.mem_cons_of_mem b hm)
    simp [read_line, hb, ih hbs]

theorem dropWhile_ws_append_ten (l : List Nat) :
    (l ++ [10]).dropWhile is_ascii_whitespace =
      if l.dropWhile is_ascii_whitespace = [] then []
      else l.dropWhile is_ascii_whitespace ++ [10] := by
  induction l with
  | nil => simp [List.dropWhile, is_ascii_whitespace]
  | cons a t ih =>
    by_cases h : is_ascii_whitespace a
    · simpa [List.dropWhile, h] using ih
    · simp [List.dropWhile, h]

theorem trim_ascii_append_ten (l : List Nat) :
    trim_ascii (l ++ [10]) = trim_ascii l := by
  unfold trim_ascii
  rw [dropWhile_ws_append_ten]
  by_cases h : l.dropWhile is_ascii_whitespace = []
  · simp [h]
  · rw [if_neg h, List.reverse_append]
    have hws : is_ascii_whitespace 10 = true := by decide
    simp [List.dropWhile, hws]

theorem trim_ascii_of_clean (l : List Nat)
    (hlead : l.dropWhile is_ascii_whitespace = l)
    (htrail : l.reverse.dropWhile is_ascii_whitespace = l.reverse) :
    trim_ascii l = l := by
  unfold trim_ascii
  rw [hlead, htrail, List.reverse_reverse]

/-- Evaluation shape of the JSON `try_read` body. -/
theorem jsonSerializer_try_read_eq (c : JsonCodec M E) (r : List Nat) :
    ( jsonSerializer c).try_read r =
      (if trim_ascii (read_line r).1 ≠ [] then
        match c.from_slice (trim_ascii (read_line r).1) with
        | Except.ok m => (Except.ok (some m), (read_line r).2)
        | Except.error e => (Except.error e, (read_line r).2)
      else (Except.ok none, (read_line r).2)) := rfl

/-- One complete framed message at the head of the stream is decoded and
exactly its bytes (encoding plus line feed) are consumed. -/
theorem jsonSerializer_try_read_msg (c : JsonCodec M E) (m : M) (rest : List Nat)
    (h : c.goodEncoding m) :
    ( jsonSerializer c).try_read (c.to_vec m ++ 10 :: rest) =
      (Except.ok (some m), rest) := by
  obtain ⟨h10, hlead, htrail, hne, hdec⟩ := h
  rw [jsonSerializer_try_read_eq, read_line_split _ _ h10]
  have htrim : trim_ascii (c.to_vec m ++ [10]) = c.to_vec m := by
    rw [trim_ascii_append_ten, trim_ascii_of_clean _ hlead htrail]
  simp only [htrim, hdec, if_pos hne]

theorem Serializer.read_succ (s : Serializer R W M E) (fuel : Nat) (r : R) :
    s.read (fuel + 1) r =
      (match s.try_read r with
       | (Except.ok (some m), r') => some (Except.ok m, r')
       | (Except.error e, r') => some (Except.error e, r')
       | (Except.ok none, r') => s.read fuel r') := rfl

/-- Claim C10: for the JSON serializer a stream at end-of-file is
indistinguishable from "no message yet": `try_read` returns `Ok(None)` rather
than an error (the empty line read at end-of-file trims to nothing), and the
derived `read` loop therefore never returns on such a stream — for every fuel
bound it fails to produce a result. -/
theorem json_eof_read_divergence (c : JsonCodec M E) :
    ( jsonSerializer c).try_read ([] : List Nat) = (Except.ok none, [])
    ∧ ∀ fuel : Nat, ( jsonSerializer c).read fuel ([] : List Nat) = none := by
  have h0 : ( jsonSerializer c).try_read ([] : List Nat) = (Except.ok none, []) := rfl
  refine ⟨h0, ?_⟩
  intro fuel
  induction fuel with
  | zero => rfl
  | succ n ih =>
    rw [Serializer.read_succ, h0]
    exact ih

/-- Claim C1 (counterexample): the wire form of the message `12` is
`[49, 50, 10]` (the digits `12` and a line feed) and the single available byte
`[49]` is a proper prefix of it; yet the JSON serializer's `try_read` consumes
that byte and returns the wrong message `1` — `serde_json::from_slice::<u64>`
accepts the digit string `1` — instead of returning `Ok(None)` and leaving the
byte on the stream. -/
theorem json_truncated_input_counterexample :
    (( jsonSerializer natCodec).write ⟨[], []⟩ 12).2.flushed = [49, 50, 10]
    ∧ [49] ≠ [49, 50, 10]
    ∧ [49] ++ [50, 10] = [49, 50, 10]
    ∧ ( jsonSerializer natCodec).try_read [49] = (Except.ok (some 1), [])
    ∧ ¬((( jsonSerializer natCodec).try_read [49]).1 = Except.ok none
        ∧ (( jsonSerializer natCodec).try_read [49]).2 = [49]) := by
  refine ⟨rfl, by decide, rfl, rfl, ?_⟩
  intro h
  have h2 : ([] : List Nat) = [49] := h.2
  exact (by decide : ([] : List Nat) ≠ [49]) h2

/-- Evaluation of the JSON `try_read` given the line that `read_line`
produced. -/
theorem jsonSerializer_try_read_line (c : JsonCodec M E) (r line rest : List Nat)
    (h : read_line r = (line, rest)) :
    ( jsonSerializer c).try_read r =
      (if trim_ascii line ≠ [] then
        match c.from_slice (trim_ascii line) with
        | Except.ok m => (Except.ok (some m), rest)
        | Except.error e => (Except.error e, rest)
      else (Except.ok none, rest)) := by
  rw [jsonSerializer_try_read_eq, h]

/-- Claim C1 (amended): when no complete line is available the JSON
serializer's `try_read` preserves the stream only in the empty case — with no
bytes available it returns `Ok(None)` and consumes nothing, but a nonempty
line-feed-free byte sequence is consumed in full by the very call that sees
it: the call returns `Ok(None)` when those bytes trim to nothing and otherwise
immediately JSON-decodes the trimmed bytes, so a partial message is never left
for a later `try_read`. -/
theorem json_truncated_input_behavior (c : JsonCodec M E) (bytes : List Nat)
    (hnl : 10 ∉ bytes) :
    ( jsonSerializer c).try_read ([] : List Nat) = (Except.ok none, [])
    ∧ (( jsonSerializer c).try_read bytes).2 = []
    ∧ (trim_ascii bytes = [] →
        ( jsonSerializer c).try_read bytes = (Except.ok none, []))
    ∧ (trim_ascii bytes ≠ [] →
        ( jsonSerializer c).try_read bytes =
          ((match c.from_slice (trim_ascii bytes) with
            | Except.ok msg => Except.ok (some msg)
            | Except.error e => Except.error e), [])) := by
  have hrl : read_line bytes = (bytes, []) := read_line_no_newline bytes hnl
  have hbody := jsonSerializer_try_read_line c bytes bytes [] hrl
  refine ⟨rfl, ?_, ?_, ?_⟩
  · rw [hbody]
    by_cases h : trim_ascii bytes = []
    · rw [if_neg (not_not_intro h)]
    · rw [if_pos h]
      cases hfs : c.from_slice (trim_ascii bytes) <;> rfl
  · intro h
    rw [hbody, if_neg (not_not_intro h)]
  · intro h
    rw [hbody, if_pos h]
    cases hfs : c.from_slice (trim_ascii bytes) <;> rfl

/-- Witness for the amended C1 at the concrete truncated input `[49]`. -/
theorem json_truncated_input_behavior_witness :
    (10 : Nat) ∉ [49]
    ∧ (( jsonSerializer natCodec).try_read [49]).2 = []
    ∧ ( jsonSerializer natCodec).try_read [49] =
        ((match natCodec.from_slice (trim_ascii [49]) with
          | Except.ok msg => Except.ok (some msg)
          | Except.error e => Except.error e), []) := by
  have h := json_truncated_input_behavior natCodec [49] (by decide)
  exact ⟨by decide, h.2.1, h.2.2.2 (by decide)⟩

/-- Claim C5: the JSON serializer's `try_read` reads exactly one text line
(consuming the bytes up to and including the first line feed and no more),
trims ASCII whitespace from it, returns `Ok(None)` when the trimmed line is
empty, and otherwise returns the JSON decode of the trimmed line (the decode
error on malformed input); its `write` appends the JSON encoding of the
message followed by a line feed and flushes the writer before returning (the
returned writer has an empty buffer and the encoding plus line feed at the end
of its flushed bytes). -/
theorem json_line_protocol (c : JsonCodec M E) (pre post : List Nat)
    (w : WriterState) (m : M) (hpre : 10 ∉ pre) :
    ( jsonSerializer c).try_read (pre ++ 10 :: post) =
      (if trim_ascii pre = [] then (Except.ok none, post)
       else match c.from_slice (trim_ascii pre) with
         | Except.ok msg => (Except.ok (some msg), post)
         | Except.error e => (Except.error e, post))
    ∧ ( jsonSerializer c).write w m =
        (Except.ok (), ⟨[], w.flushed ++ w.buffer ++ c.to_vec m ++ [10]⟩) := by
  constructor
  · rw [jsonSerializer_try_read_line c _ (pre ++ [10]) post
        (read_line_split pre post hpre), trim_ascii_append_ten]
    by_cases h : trim_ascii pre = []
    · rw [if_neg (not_not_intro h), if_pos h]
    · rw [if_pos h, if_neg h]
  · show (Except.ok (), flush (write_all (write_all w (c.to_vec m)) [10])) = _
    simp [flush, write_all, List.append_assoc]

/-- Witness for C5 at the stream `12\n3` and a write of the message `5`. -/
theorem json_line_protocol_witness :
    (10 : Nat) ∉ [49, 50]
    ∧ ( jsonSerializer natCodec).try_read ([49, 50] ++ 10 :: [51]) =
        (if trim_ascii [49, 50] = [] then (Except.ok none, [51])
         else match natCodec.from_slice (trim_ascii [49, 50]) with
           | Except.ok msg => (Except.ok (some msg), [51])
           | Except.error e => (Except.error e, [51]))
    ∧ ( jsonSerializer natCodec).write ⟨[], []⟩ 5 =
        (Except.ok (), ⟨[], [] ++ [] ++ natCodec.to_vec 5 ++ [10]⟩) := by
  have h := json_line_protocol natCodec [49, 50] [51] ⟨[], []⟩ 5 (by decide)
  exact ⟨by decide, h.1, h.2⟩

/-- Claim C6: round-trip — for a message whose `serde_json` encoding is
well-behaved (`goodEncoding`), writing it with the JSON serializer's `write`
to an empty stream produces exactly the encoding followed by a line feed, and
the derived `read` over those produced bytes yields the original message,
consuming the whole stream. -/
theorem json_roundtrip (c : JsonCodec M E) (m : M) (fuel : Nat)
    (hfuel : 1 ≤ fuel) (hm : c.goodEncoding m) :
    ( jsonSerializer c).write ⟨[], []⟩ m =
      (Except.ok (), ⟨[], c.to_vec m ++ [10]⟩)
    ∧ ( jsonSerializer c).read fuel
        ((( jsonSerializer c).write ⟨[], []⟩ m).2).flushed =
      some (Except.ok m, []) := by
  constructor
  · rfl
  · obtain ⟨n, rfl⟩ : ∃ n, fuel = n + 1 := ⟨fuel - 1, by omega⟩
    show ( jsonSerializer c).read (n + 1) (c.to_vec m ++ 10 :: []) =
      some (Except.ok m, [])
    rw [Serializer.read_succ, jsonSerializer_try_read_msg c m [] hm]

/-- Witness for C6 at the concrete message `12`. -/
theorem json_roundtrip_witness :
    natCodec.goodEncoding 12
    ∧ ( jsonSerializer natCodec).read 1
        ((( jsonSerializer natCodec).write ⟨[], []⟩ 12).2).flushed =
      some (Except.ok 12, []) := by
  have hg : natCodec.goodEncoding 12 := ⟨by decide, by decide, by decide, by decide, rfl⟩
  exact ⟨hg, (json_roundtrip natCodec 12 1 (by omega) hg).2⟩

/-- Claim C7: sequential ordering — writing `m1`, `m2`, `m3` in that order
with the JSON serializer's `write` onto an empty stream flushes their framed
encodings in that order, and three successive `read` calls over the resulting
bytes yield `m1`, `m2`, `m3` in the same order, each leaving exactly the
remaining messages' bytes on the stream. -/
theorem json_sequential_ordering (c : JsonCodec M E) (m1 m2 m3 : M)
    (h1 : c.goodEncoding m1) (h2 : c.goodEncoding m2) (h3 : c.goodEncoding m3) :
    ((( jsonSerializer c).write
        ((( jsonSerializer c).write
          ((( jsonSerializer c).write ⟨[], []⟩ m1).2) m2).2) m3).2).flushed
      = c.to_vec m1 ++ 10 :: (c.to_vec m2 ++ 10 :: (c.to_vec m3 ++ 10 :: []))
    ∧ ( jsonSerializer c).read 1
        (c.to_vec m1 ++ 10 :: (c.to_vec m2 ++ 10 :: (c.to_vec m3 ++ 10 :: [])))
      = some (Except.ok m1, c.to_vec m2 ++ 10 :: (c.to_vec m3 ++ 10 :: []))
    ∧ ( jsonSerializer c).read 1 (c.to_vec m2 ++ 10 :: (c.to_vec m3 ++ 10 :: []))
      = some (Except.ok m2, c.to_vec m3 ++ 10 :: [])
    ∧ ( jsonSerializer c).read 1 (c.to_vec m3 ++ 10 :: [])
      = some (Except.ok m3, []) := by
  have step : ∀ (m : M) (rest : List Nat), c.goodEncoding m →
      ( jsonSerializer c).read 1 (c.to_vec m ++ 10 :: rest) =
        some (Except.ok m, rest) := by
    intro m rest hm
    show ( jsonSerializer c).read (0 + 1) (c.to_vec m ++ 10 :: rest) =
      some (Except.ok m, rest)
    rw [Serializer.read_succ, jsonSerializer_try_read_msg c m rest hm]
  refine ⟨?_, step m1 _ h1, step m2 _ h2, step m3 _ h3⟩
  show (flush (write_all (write_all
    (flush (write_all (write_all
      (flush (write_all (write_all ⟨[], []⟩ (c.to_vec m1)) [10]))
      (c.to_vec m2)) [10]))
    (c.to_vec m3)) [10])).flushed = _
  simp [flush, write_all]

/-- Witness for C7 at the concrete messages `1`, `2`, `34`. -/
theorem json_sequential_ordering_witness :
    natCodec.goodEncoding 1 ∧ natCodec.goodEncoding 2 ∧ natCodec.goodEncoding 34
    ∧ ((( jsonSerializer natCodec).write
        ((( jsonSerializer natCodec).write
          ((( jsonSerializer natCodec).write ⟨[], []⟩ 1).2) 2).2) 34).2).flushed
      = natCodec.to_vec 1 ++ 10 ::
          (natCodec.to_vec 2 ++ 10 :: (natCodec.to_vec 34 ++ 10 :: []))
    ∧ ( jsonSerializer natCodec).read 1
        (natCodec.to_vec 1 ++ 10 ::
          (natCodec.to_vec 2 ++ 10 :: (natCodec.to_vec 34 ++ 10 :: [])))
      = some (Except.ok 1,
          natCodec.to_vec 2 ++ 10 :: (natCodec.to_vec 34 ++ 10 :: [])) := by
  have hg1 : natCodec.goodEncoding 1 := ⟨by decide, by decide, by decide, by decide, rfl⟩
  have hg2 : natCodec.goodEncoding 2 := ⟨by decide, by decide, by decide, by decide, rfl⟩
  have hg3 : natCodec.goodEncoding 34 := ⟨by decide, by decide, by decide, by decide, rfl⟩
  have h := json_sequential_ordering natCodec 1 2 34 hg1 hg2 hg3
  exact ⟨hg1, hg2, hg3, h.1, h.2.1⟩

/-- Claim C4: the derived `read` repeatedly calls `try_read` threading the
reader state through (`iterState`), and with enough fuel returns exactly the
first outcome that is not "no message yet": if the first `k` attempts yield
`Ok(None)` and attempt `k` yields a message or an error, `read` returns that
message or that first error together with the reader state exactly as attempt
`k` left it. -/
theorem serializer_read_first_result (s : Serializer R W M E) (k : Nat) :
    ∀ (r : R) (fuel : Nat), k < fuel →
    (∀ i, i < k → (s.try_read (s.iterState i r)).1 = Except.ok none) →
    (∀ m, (s.try_read (s.iterState k r)).1 = Except.ok (some m) →
      s.read fuel r = some (Except.ok m, (s.try_read (s.iterState k r)).2))
    ∧ (∀ e, (s.try_read (s.iterState k r)).1 = Except.error e →
      s.read fuel r = some (Except.error e, (s.try_read (s.iterState k r)).2)) := by
  induction k with
  | zero =>
    intro r fuel hk _hnone
    obtain ⟨n, rfl⟩ : ∃ n, fuel = n + 1 := ⟨fuel - 1, by omega⟩
    have h0 : s.iterState 0 r = r := rfl
    rw [h0]
    rcases hp : s.try_read r with ⟨res, r2⟩
    constructor
    · intro m hm
      change res = Except.ok (some m) at hm
      subst hm
      rw [Serializer.read_succ, hp]
    · intro e he
      change res = Except.error e at he
      subst he
      rw [Serializer.read_succ, hp]
  | succ k ih =>
    intro r fuel hk hnone
    obtain ⟨n, rfl⟩ : ∃ n, fuel = n + 1 := ⟨fuel - 1, by omega⟩
    have h0 : (s.try_read r).1 = Except.ok none := by
      have h := hnone 0 (by omega)
      rwa [show s.iterState 0 r = r from rfl] at h
    rcases hp : s.try_read r with ⟨res, r2⟩
    rw [hp] at h0
    change res = Except.ok none at h0
    subst h0
    have hiter : s.iterState (k + 1) r = s.iterState k r2 := by
      show s.iterState k (s.try_read r).2 = s.iterState k r2
      rw [hp]
    have hread : s.read (n + 1) r = s.read n r2 := by
      rw [Serializer.read_succ, hp]
    have hnone2 : ∀ i, i < k → (s.try_read (s.iterState i r2)).1 = Except.ok none := by
      intro i hi
      have h := hnone (i + 1) (by omega)
      rwa [show s.iterState (i + 1) r = s.iterState i (s.try_read r).2 from rfl,
        hp] at h
    rw [hiter, hread]
    exact ih r2 n (by omega) hnone2

/-- Witness for C4: on the stream `\n12\n` the first `try_read` attempt yields
no message (blank line) and the second yields `12`, so `read` with fuel `2`
returns `12` with the stream fully consumed. -/
theorem serializer_read_first_result_witness :
    Serializer.read ( jsonSerializer natCodec) 2 [10, 49, 50, 10] =
      some (Except.ok 12, []) := by
  have h := serializer_read_first_result ( jsonSerializer natCodec) 1
    [10, 49, 50, 10] 2 (by omega)
    (fun i hi => by
      have h0 : i = 0 := by omega
      subst h0
      rfl)
  exact h.1 12 rfl

/-- Unfolding equation for `Server.update` with the record updates spelled
out. -/
theorem Server.update_eq (s : Server R W M E) (fuel : Nat) :
    s.update fuel =
      (match s.channel.read fuel with
       | none => none
       | some (Except.error e, c') => some (Except.error e, ⟨c', s.handler⟩)
       | some (Except.ok m, c') =>
         match s.handler m with
         | some resp => some ((c'.write resp).1, ⟨(c'.write resp).2, s.handler⟩)
         | none => some (Except.ok (), ⟨c', s.handler⟩)) := rfl

/-- `UniChannel.read` outcome in terms of the serializer's derived read on the
owned reader: the reader advances exactly as the serializer leaves it and the
writer and serializer are untouched. -/
theorem UniChannel.read_of_serializer (c : UniChannel R W M E) (fuel : Nat)
    (res : Except E M) (r' : R)
    (h : c.serializer.read fuel c.reader.inner = some (res, r')) :
    c.read fuel = some (res, ⟨⟨r'⟩, c.writer, c.serializer⟩) := by
  unfold UniChannel.read ReadChannel.read
  rw [h]
  rfl

/-- Claim C2: one `update` performs exactly one blocking read through the
channel; a read error is returned as-is with the handler never consulted (the
result is the same for every handler) and the writer untouched; a successful
read followed by a handler response performs exactly one write of exactly that
response, returning the write's own result; a successful read with no handler
response performs zero writes and returns success. -/
theorem server_update_single_cycle (ch : UniChannel R W M E)
    (handler : M → Option M) (fuel : Nat) :
    (∀ e r', ch.serializer.read fuel ch.reader.inner = some (Except.error e, r') →
      ∀ handler2 : M → Option M,
        (Server.new ch handler2).update fuel =
          some (Except.error e,
            Server.new ⟨⟨r'⟩, ch.writer, ch.serializer⟩ handler2))
    ∧ (∀ m r' resp,
        ch.serializer.read fuel ch.reader.inner = some (Except.ok m, r') →
        handler m = some resp →
        (Server.new ch handler).update fuel =
          some ((ch.serializer.write ch.writer.inner resp).1,
            Server.new ⟨⟨r'⟩, ⟨(ch.serializer.write ch.writer.inner resp).2⟩,
              ch.serializer⟩ handler))
    ∧ (∀ m r', ch.serializer.read fuel ch.reader.inner = some (Except.ok m, r') →
        handler m = none →
        (Server.new ch handler).update fuel =
          some (Except.ok (), Server.new ⟨⟨r'⟩, ch.writer, ch.serializer⟩ handler)) := by
  refine ⟨?_, ?_, ?_⟩
  · intro e r' hr handler2
    rw [Server.update_eq,
      show (Server.new ch handler2).channel = ch from rfl,
      UniChannel.read_of_serializer ch fuel _ _ hr]
    rfl
  · intro m r' resp hr hresp
    rw [Server.update_eq,
      show (Server.new ch handler).channel = ch from rfl,
      UniChannel.read_of_serializer ch fuel _ _ hr]
    simp only [Server.new]
    rw [hresp]
    rfl
  · intro m r' hr hnone
    rw [Server.update_eq,
      show (Server.new ch handler).channel = ch from rfl,
      UniChannel.read_of_serializer ch fuel _ _ hr]
    simp only [Server.new]
    rw [hnone]

set_option maxHeartbeats 1000000 in
/-- Witness for C2: the stream holds `12\n`, the handler maps `12` to `13` and
everything else to no response; one `update` reads `12` and writes exactly
`13\n` (bytes `[49, 51, 10]`), returning success. -/
theorem server_update_single_cycle_witness :
    (Server.new
        (UniChannel.mk ⟨[49, 50, 10]⟩ ⟨⟨[], []⟩⟩ ( jsonSerializer natCodec))
        (fun m => if m == 12 then some 13 else none)).update 1 =
      some (Except.ok (),
        Server.new (UniChannel.mk ⟨[]⟩ ⟨⟨[], [49, 51, 10]⟩⟩ ( jsonSerializer natCodec))
          (fun m => if m == 12 then some 13 else none)) := by
  have h := (server_update_single_cycle
    (UniChannel.mk ⟨[49, 50, 10]⟩ ⟨⟨[], []⟩⟩ ( jsonSerializer natCodec))
    (fun m => if m == 12 then some 13 else none) 1).2.1 12 [] 13 rfl rfl
  exact h

/-- Claim C3: the daemon launcher initializes the shared liveness flag to true
(so `is_alive` reports true immediately); an iteration of the background loop
that observes the flag false exits without touching the server (hence issues
no read), and a finished loop stays inert; on an `update` error classified
fatal by `errors_handler` the loop stores false into the flag and exits; on an
error classified transient (and on success) the loop continues with the flag
still true; `kill` stores false into the flag so a subsequent `is_alive`
observation reports false. -/
theorem daemon_lifecycle (channel : UniChannel R W M E)
    (messages_handler : M → Option M) (errors_handler : E → Bool) (fuel : Nat) :
    ( daemon channel messages_handler).is_alive = true
    ∧ (∀ d : DaemonState R W M E, d.finished = false → d.alive = false →
        daemonStep errors_handler fuel d = some { d with finished := true })
    ∧ (∀ d : DaemonState R W M E, d.finished = true →
        daemonStep errors_handler fuel d = some d)
    ∧ (∀ (d : DaemonState R W M E) e s', d.finished = false → d.alive = true →
        d.server.update fuel = some (Except.error e, s') → errors_handler e = true →
        daemonStep errors_handler fuel d =
          some { d with alive := false, finished := true, server := s' })
    ∧ (∀ (d : DaemonState R W M E) e s', d.finished = false → d.alive = true →
        d.server.update fuel = some (Except.error e, s') → errors_handler e = false →
        daemonStep errors_handler fuel d = some { d with server := s' })
    ∧ (∀ (d : DaemonState R W M E) res s', d.finished = false → d.alive = true →
        d.server.update fuel = some (Except.ok res, s') →
        daemonStep errors_handler fuel d = some { d with server := s' })
    ∧ (∀ d : DaemonState R W M E, (d.kill).is_alive = false) := by
  refine ⟨rfl, ?_, ?_, ?_, ?_, ?_, fun d => rfl⟩
  · intro d hfin halive
    simp [daemonStep, hfin, halive]
  · intro d hfin
    simp [daemonStep, hfin]
  · intro d e s' hfin halive hupd herr
    simp [daemonStep, hfin, halive, hupd, herr]
  · intro d e s' hfin halive hupd herr
    simp [daemonStep, hfin, halive, hupd, herr]
  · intro d res s' hfin halive hupd
    simp [daemonStep, hfin, halive, hupd]

/-- Witness for C3 with the JSON serializer over the malformed stream `x\n`
and a fatally-classifying errors handler. -/
theorem daemon_lifecycle_witness :
    ( daemon (UniChannel.mk ⟨[120, 10]⟩ ⟨⟨[], []⟩⟩ ( jsonSerializer natCodec))
        (fun _ => none)).is_alive = true
    ∧ daemonStep (fun _ => true) 1
        ⟨false, false, Server.new
          (UniChannel.mk ⟨[120, 10]⟩ ⟨⟨[], []⟩⟩ ( jsonSerializer natCodec))
          (fun _ => none)⟩
      = some ⟨false, true, Server.new
          (UniChannel.mk ⟨[120, 10]⟩ ⟨⟨[], []⟩⟩ ( jsonSerializer natCodec))
          (fun _ => none)⟩
    ∧ daemonStep (fun _ => true) 1
        ⟨true, false, Server.new
          (UniChannel.mk ⟨[120, 10]⟩ ⟨⟨[], []⟩⟩ ( jsonSerializer natCodec))
          (fun _ => none)⟩
      = some ⟨false, true, Server.new
          (UniChannel.mk ⟨[]⟩ ⟨⟨[], []⟩⟩ ( jsonSerializer natCodec))
          (fun _ => none)⟩
    ∧ (DaemonState.kill
        ⟨true, false, Server.new
          (UniChannel.mk ⟨[120, 10]⟩ ⟨⟨[], []⟩⟩ ( jsonSerializer natCodec))
          (fun _ => none)⟩).is_alive = false := by
  have h := daemon_lifecycle
    (UniChannel.mk ⟨[120, 10]⟩ ⟨⟨[], []⟩⟩ ( jsonSerializer natCodec))
    (fun _ => none) (fun _ => true) 1
  refine ⟨h.1, ?_, ?_, h.2.2.2.2.2.2 _⟩
  · exact h.2.1 _ rfl rfl
  · exact h.2.2.2.1 _ 0
      (Server.new (UniChannel.mk ⟨[]⟩ ⟨⟨[], []⟩⟩ ( jsonSerializer natCodec))
        (fun _ => none)) rfl rfl rfl rfl

/-- Claim C8: `UniChannel` and `BiChannel` are pure delegation layers — each
`try_read`/`read`/`write` returns exactly the result of the corresponding
serializer operation applied to the channel's owned reader/writer (the
`BiChannel` using its single stream for both directions), the only state
change being the stream state the serializer leaves behind; the other stream
and the serializer are untouched and no error is wrapped or introduced. -/
theorem channel_pure_delegation (c : UniChannel R W M E) (b : BiChannel T M E)
    (m : M) (fuel : Nat) :
    c.try_read = ((c.serializer.try_read c.reader.inner).1,
      ⟨⟨(c.serializer.try_read c.reader.inner).2⟩, c.writer, c.serializer⟩)
    ∧ c.read fuel = (c.serializer.read fuel c.reader.inner).map
        (fun p => (p.1, ⟨⟨p.2⟩, c.writer, c.serializer⟩))
    ∧ c.write m = ((c.serializer.write c.writer.inner m).1,
      ⟨c.reader, ⟨(c.serializer.write c.writer.inner m).2⟩, c.serializer⟩)
    ∧ b.try_read = ((b.serializer.try_read b.stream).1,
      ⟨(b.serializer.try_read b.stream).2, b.serializer⟩)
    ∧ b.read fuel = (b.serializer.read fuel b.stream).map
        (fun p => (p.1, ⟨p.2, b.serializer⟩))
    ∧ b.write m = ((b.serializer.write b.stream m).1,
      ⟨(b.serializer.write b.stream m).2, b.serializer⟩) := by
  refine ⟨rfl, ?_, rfl, rfl, ?_, rfl⟩
  · unfold UniChannel.read ReadChannel.read
    cases c.serializer.read fuel c.reader.inner <;> rfl
  · unfold BiChannel.read
    cases b.serializer.read fuel b.stream <;> rfl

/-- Claim C9: ` process_stdio` and ` process_stdie` propagate a spawn failure,
report a missing stdin/stdout/stderr pipe of the spawned child as a distinct
(`Error::other`) error rather than assuming it present, and on success return
the child handle (its used pipes taken) together with a `UniChannel` whose
reader is the child's stdout (resp. stderr) and whose writer is the child's
stdin. -/
theorem process_spawn_channel_contract (sp : Except ε (Child P))
    (serializer : Serializer (BufReader P) (BufWriter P) M E) :
    (∀ e, sp = Except.error e →
      process_stdio sp serializer = Except.error (IoError.os e)
      ∧ process_stdie sp serializer = Except.error (IoError.os e))
    ∧ (∀ child, sp = Except.ok child → child.stdin = none →
      process_stdio sp serializer =
        Except.error (IoError.other "spawned process stdin pipe is missing")
      ∧ process_stdie sp serializer =
        Except.error (IoError.other "spawned process stdin pipe is missing"))
    ∧ (∀ child i, sp = Except.ok child → child.stdin = some i →
      child.stdout = none →
      process_stdio sp serializer =
        Except.error (IoError.other "spawned process stdout pipe is missing"))
    ∧ (∀ child i, sp = Except.ok child → child.stdin = some i →
      child.stderr = none →
      process_stdie sp serializer =
        Except.error (IoError.other "spawned process stderr pipe is missing"))
    ∧ (∀ child i o, sp = Except.ok child → child.stdin = some i →
      child.stdout = some o →
      process_stdio sp serializer =
        Except.ok ({ child with stdin := none, stdout := none },
          UniChannel.mk ⟨⟨o⟩⟩ ⟨⟨i⟩⟩ serializer))
    ∧ (∀ child i o, sp = Except.ok child → child.stdin = some i →
      child.stderr = some o →
      process_stdie sp serializer =
        Except.ok ({ child with stdin := none, stderr := none },
          UniChannel.mk ⟨⟨o⟩⟩ ⟨⟨i⟩⟩ serializer))
    ∧ (∀ (e : ε) (msg : String), IoError.os e ≠ IoError.other msg) := by
  refine ⟨?_, ?_, ?_, ?_, ?_, ?_, fun e msg h => IoError.noConfusion h⟩
  · intro e hsp
    subst hsp
    exact ⟨rfl, rfl⟩
  · intro child hsp h1
    subst hsp
    obtain ⟨cin, cout, cerr⟩ := child
    change cin = none at h1
    subst h1
    exact ⟨rfl, rfl⟩
  · intro child i hsp h1 h2
    subst hsp
    obtain ⟨cin, cout, cerr⟩ := child
    change cin = some i at h1
    change cout = none at h2
    subst h1
    subst h2
    rfl
  · intro child i hsp h1 h2
    subst hsp
    obtain ⟨cin, cout, cerr⟩ := child
    change cin = some i at h1
    change cerr = none at h2
    subst h1
    subst h2
    rfl
  · intro child i o hsp h1 h2
    subst hsp
    obtain ⟨cin, cout, cerr⟩ := child
    change cin = some i at h1
    change cout = some o at h2
    subst h1
    subst h2
    rfl
  · intro child i o hsp h1 h2
    subst hsp
    obtain ⟨cin, cout, cerr⟩ := child
    change cin = some i at h1
    change cerr = some o at h2
    subst h1
    subst h2
    rfl

/-- Witness for C9: a successful spawn with all pipes present yields the
stdout/stdin channel; a failed spawn propagates the OS error; a spawn without
a stderr pipe makes ` process_stdie` report the missing pipe. -/
theorem process_spawn_channel_contract_witness :
    process_stdio (Except.ok (⟨some 1, some 2, some 3⟩ : Child Nat) : Except Nat (Child Nat))
        pipeSerializer =
      Except.ok (⟨none, none, some 3⟩, UniChannel.mk ⟨⟨2⟩⟩ ⟨⟨1⟩⟩ pipeSerializer)
    ∧ process_stdio (Except.error 7 : Except Nat (Child Nat)) pipeSerializer =
      Except.error (IoError.os 7)
    ∧ process_stdie (Except.ok (⟨some 1, none, none⟩ : Child Nat) : Except Nat (Child Nat))
        pipeSerializer =
      Except.error (IoError.other "spawned process stderr pipe is missing") := by
  refine ⟨?_, ?_, ?_⟩
  · exact (process_spawn_channel_contract
      (Except.ok (⟨some 1, some 2, some 3⟩ : Child Nat) : Except Nat (Child Nat))
      pipeSerializer).2.2.2.2.1 _ 1 2 rfl rfl rfl
  · exact ((process_spawn_channel_contract
      (Except.error 7 : Except Nat (Child Nat)) pipeSerializer).1 7 rfl).1
  · exact (process_spawn_channel_contract
      (Except.ok (⟨some 1, none, none⟩ : Child Nat) : Except Nat (Child Nat))
      pipeSerializer).2.2.2.1 _ 1 rfl rfl rfl

end Ioserverlib
